import Mathlib

/-!
Shallow embedding of the MCP customer-service bridge
(`mcp_server_standalone.py` and `mcp_tools.py`).

Modelling conventions:
* SQLite cell values are modelled by `Value` (text, integer, or NULL).
  Floats and blobs never occur in this system and are elided.
* ISO-8601 UTC timestamp strings compare chronologically
  (same fixed format, lexicographic = chronological), so timestamps are
  modelled as `Nat` time points; `datetime.now()` is an explicit `now`
  parameter threaded to the operations that read the clock.
* Each table is a list of rows in insertion (rowid) order; `SELECT`
  without `ORDER BY` scans in that order, `WHERE id=?` with
  `fetchone` is `List.find?`, and `ORDER BY created_at DESC` is a
  stable merge sort on the descending comparator.
* `LIMIT ?` follows SQLite semantics: a negative limit means no bound.
* `AUTOINCREMENT` for tickets is the explicit counter `nextTicketId`.
-/

/-- A SQLite cell value as stored by the bridge (TEXT, INTEGER or NULL). -/
inductive Value
  | vStr (s : String)
  | vInt (n : Int)
  | vNull
deriving DecidableEq, Repr

/-- Row of the `customers` table (`mcp_server_standalone.py` lines 31-40). -/
structure Customer where
  id : Int
  name : Value
  email : Value
  phone : Value
  status : Value
  created_at : Nat
  updated_at : Nat
deriving DecidableEq, Repr

/-- Row of the `tickets` table (`mcp_server_standalone.py` lines 41-49). -/
structure Ticket where
  id : Int
  customer_id : Int
  issue : Value
  status : Value
  priority : Value
  created_at : Nat
deriving DecidableEq, Repr

/-- The whole relational file: both tables plus the ticket AUTOINCREMENT counter. -/
structure DB where
  customers : List Customer
  tickets : List Ticket
  nextTicketId : Int
deriving DecidableEq, Repr

/-- Success/failure envelope payloads (the `data` field). -/
inductive Payload
  | customer (c : Customer)
  | customerList (cs : List Customer)
  | ticket (t : Ticket)
  | ticketList (ts : List Ticket)
deriving DecidableEq, Repr

/-- The uniform result envelope: `\x7bsuccess: true, data, count?\x7d` or
`\x7bsuccess: false, error\x7d`. -/
inductive ToolResult
  | success (data : Payload) (count : Option Nat)
  | failure (error : String)
deriving DecidableEq, Repr

/-- Seed timestamp used by `init_db` (one `now` for every seeded row). -/
def seedTime : Nat := 0

/-- The deterministic seed store built by `init_db`
(`mcp_server_standalone.py` lines 19-81): six customers with explicit ids,
seven tickets with auto-assigned ids 1..7, so the next ticket id is 8. -/
def seedDB : DB :=
  { customers := [
      ⟨1, .vStr "Alice Premium", .vStr "alice@example.com", .vStr "111-111-1111", .vStr "active", seedTime, seedTime⟩,
      ⟨2, .vStr "Bob Standard", .vStr "bob@example.com", .vStr "222-222-2222", .vStr "active", seedTime, seedTime⟩,
      ⟨3, .vStr "Charlie Disabled", .vStr "charlie@example.com", .vStr "333-333-3333", .vStr "disabled", seedTime, seedTime⟩,
      ⟨4, .vStr "Diana Premium", .vStr "diana@example.com", .vStr "444-444-4444", .vStr "active", seedTime, seedTime⟩,
      ⟨5, .vStr "Eve Standard", .vStr "eve@example.com", .vStr "555-555-5555", .vStr "active", seedTime, seedTime⟩,
      ⟨12345, .vStr "Priya Patel (Premium)", .vStr "priya@example.com", .vStr "555-0999", .vStr "active", seedTime, seedTime⟩],
    tickets := [
      ⟨1, 1, .vStr "Billing duplicate charge", .vStr "open", .vStr "high", seedTime⟩,
      ⟨2, 1, .vStr "Unable to login", .vStr "in_progress", .vStr "medium", seedTime⟩,
      ⟨3, 2, .vStr "Request upgrade", .vStr "open", .vStr "low", seedTime⟩,
      ⟨4, 4, .vStr "Critical outage", .vStr "open", .vStr "high", seedTime⟩,
      ⟨5, 5, .vStr "Password reset", .vStr "open", .vStr "low", seedTime⟩,
      ⟨6, 12345, .vStr "Account upgrade assistance", .vStr "open", .vStr "medium", seedTime⟩,
      ⟨7, 12345, .vStr "High priority refund review", .vStr "open", .vStr "high", seedTime⟩],
    nextTicketId := 8 }

/-- Well-formedness maintained by the store: customer primary keys are
distinct and every existing ticket id is below the AUTOINCREMENT counter. -/
def DB.WF (db : DB) : Prop :=
  (db.customers.map Customer.id).Nodup ∧ ∀ t ∈ db.tickets, t.id < db.nextTicketId

instance (db : DB) : Decidable db.WF := by
  unfold DB.WF; infer_instance

namespace MCPServer

/-- The update allow-list (`mcp_server_standalone.py` line 126). -/
def allowed_fields : List String := ["name", "email", "phone", "status"]

/-- Embeds `_get_customer_tool` (`mcp_server_standalone.py` lines 97-106):
`SELECT * FROM customers WHERE id=?`, `fetchone`. -/
def get_customer (db : DB) (customer_id : Int) : ToolResult :=
  match db.customers.find? (fun c => c.id == customer_id) with
  | some row => .success (.customer row) none
  | none => .failure ("Customer " ++ toString customer_id ++ " not found")

/-- Python truthiness of the optional `status` argument: `None` and the
empty string are falsy (`if status:` on line 112). -/
def pyTruthy : Option String → Bool
  | none => false
  | some s => !s.isEmpty

/-- Embeds `_list_customers_tool` (`mcp_server_standalone.py` lines 108-118):
optional exact-match status filter, then `LIMIT ?` (negative = unbounded). -/
def list_customers (db : DB) (status : Option String) (limit : Int) : ToolResult :=
  let rows :=
    if pyTruthy status then
      db.customers.filter (fun c => c.status == Value.vStr (status.getD ""))
    else
      db.customers
  let rows := if limit < 0 then rows else rows.take limit.toNat
  .success (.customerList rows) (some rows.length)

/-- One `k=?` assignment of the `UPDATE customers SET ...` clause
(line 135): assigns the named column, leaves every other column alone. -/
def setField (c : Customer) (k : String) (v : Value) : Customer :=
  if k = "name" then { c with name := v }
  else if k = "email" then { c with email := v }
  else if k = "phone" then { c with phone := v }
  else if k = "status" then { c with status := v }
  else c

/-- The full `UPDATE ... SET <allow-listed fields>, updated_at=? WHERE id=?`
row transformation (lines 133-135). -/
def applyUpdates (c : Customer) (updates : List (String × Value)) (now : Nat) : Customer :=
  { updates.foldl (fun acc kv => setField acc kv.1 kv.2) c with updated_at := now }

/-- Embeds `_update_customer_tool` (`mcp_server_standalone.py` lines 120-145):
filter the payload by the allow-list, fail on an empty filtered set,
otherwise update the matching row and re-select it. -/
def update_customer (db : DB) (customer_id : Int) (data : List (String × Value)) (now : Nat) :
    ToolResult × DB :=
  let updates := data.filter (fun kv => allowed_fields.contains kv.1)
  if updates.isEmpty then
    (.failure "No valid fields to update", db)
  else
    let customers' := db.customers.map
      (fun c => if c.id = customer_id then applyUpdates c updates now else c)
    let db' := { db with customers := customers' }
    match customers'.find? (fun c => c.id == customer_id) with
    | some row => (.success (.customer row) none, db')
    | none => (.failure ("Customer " ++ toString customer_id ++ " not found"), db')

/-- Python `str.lower()` as the per-character lowering of the string
(it agrees with Python on the ASCII priorities this system compares). -/
def pyLower (s : String) : String := String.mk (s.data.map Char.toLower)

/-- Embeds `_create_ticket_tool` (`mcp_server_standalone.py` lines 147-170):
validate (lower-cased) priority, insert with auto id, re-select the row. -/
def create_ticket (db : DB) (customer_id : Int) (issue : String) (priority : String) (now : Nat) :
    ToolResult × DB :=
  if !(["low", "medium", "high"].contains (pyLower priority)) then
    (.failure "Priority must be \x27low\x27, \x27medium\x27, or \x27high\x27", db)
  else
    let t : Ticket :=
      ⟨db.nextTicketId, customer_id, .vStr issue, .vStr "open", .vStr (pyLower priority), now⟩
    let db' : DB := { db with tickets := db.tickets ++ [t], nextTicketId := db.nextTicketId + 1 }
    match db'.tickets.find? (fun r => r.id == t.id) with
    | some row => (.success (.ticket row) none, db')
    | none => (.failure "Failed to create ticket", db')

/-- Descending comparator for `ORDER BY created_at DESC`. -/
def createdDesc (a b : Ticket) : Bool := b.created_at ≤ a.created_at

/-- Embeds `_get_customer_history_tool` (`mcp_server_standalone.py` lines 172-182):
all tickets of the customer, newest first; always a success envelope. -/
def get_customer_history (db : DB) (customer_id : Int) : ToolResult :=
  let rows := (db.tickets.filter (fun t => t.customer_id == customer_id)).mergeSort createdDesc
  .success (.ticketList rows) (some rows.length)

end MCPServer

/-- A JSON-decoded Python value arriving in the `params` map of a
`POST /call` request. Composite values never occur as tool arguments in
this system except for `update_customer`'s `data` dict of scalar cells. -/
inductive PValue
  | pInt (n : Int)
  | pStr (s : String)
  | pDict (d : List (String × Value))
  | pNone
deriving DecidableEq, Repr

namespace MCPServer

/-- Names registered in `self.tools` (`mcp_server_standalone.py` lines 89-95). -/
def registeredTools : List String :=
  ["get_customer", "list_customers", "update_customer", "create_ticket", "get_customer_history"]

/-- The `**kwargs` arity check: every supplied keyword must be a parameter of
the tool, else Python raises `TypeError: unexpected keyword argument`. -/
def keysOk (params : List (String × PValue)) (accepted : List String) : Bool :=
  params.all (fun kv => accepted.contains kv.1)

/-- Representative message of the `TypeError` Python raises for a stray
keyword argument. -/
def unexpectedKw (name : String) : String :=
  "TypeError: " ++ name ++ "() got an unexpected keyword argument"

/-- Bind a required int argument. A missing key is Python's
`TypeError: missing required positional argument`; a value of the wrong
shape is modelled as the dynamic error its use would raise downstream. -/
def getIntArg (params : List (String × PValue)) (k : String) : Except String Int :=
  match params.lookup k with
  | some (.pInt n) => .ok n
  | some _ => .error ("TypeError: bad argument type for " ++ k)
  | none => .error ("TypeError: missing required argument: " ++ k)

/-- Bind an optional int argument with its Python default. -/
def getIntArgD (params : List (String × PValue)) (k : String) (dflt : Int) : Except String Int :=
  match params.lookup k with
  | some (.pInt n) => .ok n
  | some _ => .error ("TypeError: bad argument type for " ++ k)
  | none => .ok dflt

/-- Bind the optional `status: str = None` argument. -/
def getOptStrArg (params : List (String × PValue)) (k : String) : Except String (Option String) :=
  match params.lookup k with
  | some (.pStr s) => .ok (some s)
  | some .pNone => .ok none
  | some _ => .error ("TypeError: bad argument type for " ++ k)
  | none => .ok none

/-- Bind a required string argument with an optional default. -/
def getStrArg (params : List (String × PValue)) (k : String) (dflt : Option String) :
    Except String String :=
  match params.lookup k with
  | some (.pStr s) => .ok s
  | some _ => .error ("TypeError: bad argument type for " ++ k)
  | none =>
    match dflt with
    | some d => .ok d
    | none => .error ("TypeError: missing required argument: " ++ k)

/-- Bind the required `data: dict` argument of `update_customer`. -/
def getDictArg (params : List (String × PValue)) (k : String) :
    Except String (List (String × Value)) :=
  match params.lookup k with
  | some (.pDict d) => .ok d
  | some _ => .error ("TypeError: bad argument type for " ++ k)
  | none => .error ("TypeError: missing required argument: " ++ k)

/-- Execution of one registered tool body under `self.tools[tool_name](**kwargs)`:
`Except.error` is an exception escaping the tool call (kwargs binding
`TypeError`s, or a dynamic error from a wrongly-typed value). -/
def runTool (db : DB) (now : Nat) (name : String) (params : List (String × PValue)) :
    Except String (ToolResult × DB) :=
  if name = "get_customer" then
    if !keysOk params ["customer_id"] then .error (unexpectedKw name) else
    match getIntArg params "customer_id" with
    | .error e => .error e
    | .ok cid => .ok (get_customer db cid, db)
  else if name = "list_customers" then
    if !keysOk params ["status", "limit"] then .error (unexpectedKw name) else
    match getOptStrArg params "status", getIntArgD params "limit" 100 with
    | .error e, _ => .error e
    | _, .error e => .error e
    | .ok st, .ok lim => .ok (list_customers db st lim, db)
  else if name = "update_customer" then
    if !keysOk params ["customer_id", "data"] then .error (unexpectedKw name) else
    match getIntArg params "customer_id", getDictArg params "data" with
    | .error e, _ => .error e
    | _, .error e => .error e
    | .ok cid, .ok d => .ok (update_customer db cid d now)
  else if name = "create_ticket" then
    if !keysOk params ["customer_id", "issue", "priority"] then .error (unexpectedKw name) else
    match getIntArg params "customer_id", getStrArg params "issue" none,
          getStrArg params "priority" (some "medium") with
    | .error e, _, _ => .error e
    | _, .error e, _ => .error e
    | _, _, .error e => .error e
    | .ok cid, .ok issue, .ok prio => .ok (create_ticket db cid issue prio now)
  else if name = "get_customer_history" then
    if !keysOk params ["customer_id"] then .error (unexpectedKw name) else
    match getIntArg params "customer_id" with
    | .error e => .error e
    | .ok cid => .ok (get_customer_history db cid, db)
  else
    .error ("Unknown tool: " ++ name)

/-- Embeds `MCPServer.call_tool` (`mcp_server_standalone.py` lines 184-191):
dispatch by name, converting an unknown name or any exception raised by
the tool into a failure envelope; the store is left as the failed tool
left it (binding errors occur before any write, so it is unchanged). -/
def call_tool (db : DB) (now : Nat) (tool_name : String) (params : List (String × PValue)) :
    ToolResult × DB :=
  if !registeredTools.contains tool_name then
    (.failure ("Unknown tool: " ++ tool_name), db)
  else
    match runTool db now tool_name params with
    | .ok r => r
    | .error e => (.failure e, db)

end MCPServer

/-!
Client side: `mcp_tools.py`. Python objects exchanged with the bridge over
JSON are modelled by `Json`; floats, `NaN`/`Infinity` literals and UTF-16
surrogate pairs in `\u` escapes never occur in this system and are elided
from the model (the integer-only number grammar is noted at `parseNum`).
-/

/-- A JSON document / decoded Python object on the client side. -/
inductive Json
  | jNull
  | jBool (b : Bool)
  | jInt (n : Int)
  | jStr (s : String)
  | jArr (xs : List Json)
  | jObj (fields : List (String × Json))

/-- Four lowercase hex digits, as in Python's `\uXXXX` escapes. -/
def hex4 (n : Nat) : String :=
  String.mk [Nat.digitChar (n / 4096 % 16), Nat.digitChar (n / 256 % 16),
    Nat.digitChar (n / 16 % 16), Nat.digitChar (n % 16)]

/-- Python `json.dumps` escaping of one character (`ensure_ascii=True` default):
quote, backslash and the short escapes verbatim, other control and all
non-ASCII characters as `\uXXXX` (surrogate pairs above the BMP). -/
def jsonEscapeChar (c : Char) : String :=
  if c = '\"' then "\\\""
  else if c = '\\' then "\\\\"
  else if c = '\n' then "\\n"
  else if c = '\t' then "\\t"
  else if c = '\r' then "\\r"
  else if c = '\x08' then "\\b"
  else if c = '\x0C' then "\\f"
  else if c.toNat < 0x20 then "\\u" ++ hex4 c.toNat
  else if c.toNat ≤ 0x7f then String.singleton c
  else if c.toNat < 0x10000 then "\\u" ++ hex4 c.toNat
  else
    "\\u" ++ hex4 (0xD800 + (c.toNat - 0x10000) / 0x400) ++
    "\\u" ++ hex4 (0xDC00 + (c.toNat - 0x10000) % 0x400)

/-- A JSON string literal as `json.dumps` emits it. -/
def jsonEscape (s : String) : String :=
  "\"" ++ String.join (s.data.map jsonEscapeChar) ++ "\""

/-- Indentation prefix at nesting depth `d` for `json.dumps(-, indent=2)`. -/
def jIndent (d : Nat) : String := String.mk (List.replicate (2 * d) ' ')

mutual

/-- Python `json.dumps(x, indent=2)` (used by `_call_mcp_tool`, `mcp_tools.py`
line 27): with an indent the separators are `",\n"` items and `": "`
key-value; empty containers print on one line. -/
def jsonDumps : Json → Nat → String
  | .jNull, _ => "null"
  | .jBool true, _ => "true"
  | .jBool false, _ => "false"
  | .jInt n, _ => toString n
  | .jStr s, _ => jsonEscape s
  | .jArr [], _ => "[]"
  | .jArr (x :: xs), d => "[\n" ++ jsonDumpsItems (x :: xs) (d + 1) ++ "\n" ++ jIndent d ++ "]"
  | .jObj [], _ => "\x7b\x7d"
  | .jObj (f :: fs), d =>
    "\x7b\n" ++ jsonDumpsFields (f :: fs) (d + 1) ++ "\n" ++ jIndent d ++ "\x7d"

/-- Comma-newline-joined array items at depth `d`. -/
def jsonDumpsItems : List Json → Nat → String
  | [], _ => ""
  | [x], d => jIndent d ++ jsonDumps x d
  | x :: y :: xs, d => jIndent d ++ jsonDumps x d ++ ",\n" ++ jsonDumpsItems (y :: xs) d

/-- Comma-newline-joined object members at depth `d`. -/
def jsonDumpsFields : List (String × Json) → Nat → String
  | [], _ => ""
  | [(k, v)], d => jIndent d ++ jsonEscape k ++ ": " ++ jsonDumps v d
  | (k, v) :: f :: fs, d =>
    jIndent d ++ jsonEscape k ++ ": " ++ jsonDumps v d ++ ",\n" ++ jsonDumpsFields (f :: fs) d

end

/-- Python type name of a decoded JSON value (for runtime error messages). -/
def pyTypeName : Json → String
  | .jNull => "NoneType"
  | .jBool _ => "bool"
  | .jInt _ => "int"
  | .jStr _ => "str"
  | .jArr _ => "list"
  | .jObj _ => "dict"

/-- Python truthiness of a decoded JSON value (`if result.get("success"):`). -/
def jsonTruthy : Json → Bool
  | .jNull => false
  | .jBool b => b
  | .jInt n => n != 0
  | .jStr s => !s.isEmpty
  | .jArr xs => !xs.isEmpty
  | .jObj fs => !fs.isEmpty

/-- Python `str()` of a scalar decoded JSON value, as interpolated by
`_call_mcp_tool`. The composite cases are unreachable there (guarded by
`isinstance(data, (dict, list))`); Python would use `repr`, elided here. -/
def pyStr : Json → String
  | .jNull => "None"
  | .jBool true => "True"
  | .jBool false => "False"
  | .jInt n => toString n
  | .jStr s => s
  | .jArr _ => ""
  | .jObj _ => ""

/-- Outcome of the `requests.post(...)`/`raise_for_status`/`.json()`
sequence: either some exception (connection failure, timeout, HTTP error
status, body parse failure) with its message, or a decoded JSON body. -/
inductive NetOutcome
  | failure (reason : String)
  | reply (body : Json)

/-- Message of the `AttributeError` raised by `result.get(...)` when the
decoded body is not a dict; it is raised inside the `try` block, so it is
reported exactly like a transport failure. -/
def attrErrorMsg (j : Json) : String :=
  "\x27" ++ pyTypeName j ++ "\x27 object has no attribute \x27get\x27"

/-- Embeds `_call_mcp_tool` (`mcp_tools.py` lines 13-32), given the network
behaviour as a function from the posted request to its outcome:
transport-level exceptions become `"MCP call failed: <reason>"`, failure
envelopes become `"Error: <message>"`, success payloads are pretty-printed
(dict/list) or `str()`-rendered (scalars). Always returns a string. -/
def call_mcp_tool (net : String → List (String × Json) → NetOutcome)
    (tool_name : String) (params : List (String × Json)) : String :=
  match net tool_name params with
  | .failure reason => "MCP call failed: " ++ reason
  | .reply body =>
    match body with
    | .jObj fields =>
      if jsonTruthy ((fields.lookup "success").getD .jNull) then
        let data := (fields.lookup "data").getD .jNull
        match data with
        | .jObj _ => jsonDumps data 0
        | .jArr _ => jsonDumps data 0
        | _ => pyStr data
      else
        "Error: " ++ pyStr ((fields.lookup "error").getD (.jStr "Unknown error"))
    | other => "MCP call failed: " ++ attrErrorMsg other

/-- JSON whitespace skipping (`json.loads` lexer). -/
def skipWs : List Char → List Char
  | c :: cs => if c = ' ' ∨ c = '\t' ∨ c = '\n' ∨ c = '\r' then skipWs cs else c :: cs
  | [] => []

/-- One short escape of the JSON string grammar. -/
def escChar (e : Char) : Option Char :=
  if e = '\"' then some '\"'
  else if e = '\\' then some '\\'
  else if e = '/' then some '/'
  else if e = 'b' then some '\x08'
  else if e = 'f' then some '\x0C'
  else if e = 'n' then some '\n'
  else if e = 'r' then some '\r'
  else if e = 't' then some '\t'
  else none

/-- Hex digit value, if any. -/
def hexVal (c : Char) : Option Nat :=
  if '0' ≤ c ∧ c ≤ '9' then some (c.toNat - '0'.toNat)
  else if 'a' ≤ c ∧ c ≤ 'f' then some (c.toNat - 'a'.toNat + 10)
  else if 'A' ≤ c ∧ c ≤ 'F' then some (c.toNat - 'A'.toNat + 10)
  else none

/-- Body of a JSON string literal after the opening quote: returns the
decoded characters and the input after the closing quote. Raw control
characters are rejected (strict mode); `\u` escapes denoting UTF-16
surrogates are outside the model. -/
def parseStringBody : List Char → Option (List Char × List Char)
  | [] => none
  | '\"' :: cs => some ([], cs)
  | '\\' :: 'u' :: a :: b :: c :: d :: cs =>
    match hexVal a, hexVal b, hexVal c, hexVal d with
    | some ha, some hb, some hc, some hd =>
      let n := ((ha * 16 + hb) * 16 + hc) * 16 + hd
      if 0xD800 ≤ n ∧ n < 0xE000 then none
      else (parseStringBody cs).map (fun p => (Char.ofNat n :: p.1, p.2))
    | _, _, _, _ => none
  | '\\' :: e :: cs =>
    match escChar e with
    | some ch => (parseStringBody cs).map (fun p => (ch :: p.1, p.2))
    | none => none
  | c :: cs =>
    if c.toNat < 0x20 then none
    else (parseStringBody cs).map (fun p => (c :: p.1, p.2))

/-- Digit run to its value. -/
def digitsToNat (ds : List Char) : Nat :=
  ds.foldl (fun n c => 10 * n + (c.toNat - '0'.toNat)) 0

/-- JSON number parsing, restricted to integers: this system only ever
exchanges integral numbers, so the fraction/exponent forms (and Python's
`NaN`/`Infinity` extensions) are left outside the grammar. -/
def parseNum (cs : List Char) : Option (Json × List Char) :=
  let (neg, cs') := match cs with
    | '-' :: rest => (true, rest)
    | _ => (false, cs)
  let (ds, rest) := cs'.span (fun c => c.isDigit)
  match ds with
  | [] => none
  | d0 :: drest =>
    if d0 = '0' ∧ drest ≠ [] then none
    else
      match rest with
      | '.' :: _ => none
      | 'e' :: _ => none
      | 'E' :: _ => none
      | _ =>
        let n : Int := Int.ofNat (digitsToNat ds)
        some (.jInt (if neg then -n else n), rest)

mutual

/-- The `json.loads` value grammar (recursive descent; `fuel` bounds nesting
depth and is structurally decreasing). -/
def parseValue : Nat → List Char → Option (Json × List Char)
  | 0, _ => none
  | fuel + 1, cs0 =>
    match skipWs cs0 with
    | 'n' :: 'u' :: 'l' :: 'l' :: rest => some (.jNull, rest)
    | 't' :: 'r' :: 'u' :: 'e' :: rest => some (.jBool true, rest)
    | 'f' :: 'a' :: 'l' :: 's' :: 'e' :: rest => some (.jBool false, rest)
    | '\"' :: rest => (parseStringBody rest).map (fun p => (.jStr (String.mk p.1), p.2))
    | '[' :: rest =>
      match skipWs rest with
      | ']' :: rest2 => some (.jArr [], rest2)
      | _ =>
        match parseItems fuel rest with
        | some (xs, rest2) => some (.jArr xs, rest2)
        | none => none
    | '\x7b' :: rest =>
      match skipWs rest with
      | '\x7d' :: rest2 => some (.jObj [], rest2)
      | _ =>
        match parseMembers fuel rest with
        | some (fs, rest2) => some (.jObj fs, rest2)
        | none => none
    | cs => parseNum cs

/-- Comma-separated array items up to `]`. -/
def parseItems : Nat → List Char → Option (List Json × List Char)
  | 0, _ => none
  | fuel + 1, cs =>
    match parseValue fuel cs with
    | none => none
    | some (v, rest) =>
      match skipWs rest with
      | ',' :: rest2 => (parseItems fuel rest2).map (fun p => (v :: p.1, p.2))
      | ']' :: rest2 => some ([v], rest2)
      | _ => none

/-- Comma-separated object members up to the closing brace. -/
def parseMembers : Nat → List Char → Option (List (String × Json) × List Char)
  | 0, _ => none
  | fuel + 1, cs =>
    match skipWs cs with
    | '\"' :: rest =>
      match parseStringBody rest with
      | none => none
      | some (kcs, rest2) =>
        match skipWs rest2 with
        | ':' :: rest3 =>
          match parseValue fuel rest3 with
          | none => none
          | some (v, rest4) =>
            match skipWs rest4 with
            | ',' :: rest5 =>
              (parseMembers fuel rest5).map (fun p => ((String.mk kcs, v) :: p.1, p.2))
            | '\x7d' :: rest5 => some ([(String.mk kcs, v)], rest5)
            | _ => none
        | _ => none
    | _ => none

end

/-- Embeds `json.loads` (`mcp_tools.py` line 52): the whole input must be one
JSON value with only trailing whitespace; `none` is `json.JSONDecodeError`. -/
def json_loads (s : String) : Option Json :=
  match parseValue (s.length + 1) s.data with
  | some (j, rest) => if (skipWs rest).isEmpty then some j else none
  | none => none

/-- Embeds `tool_get_customer` (`mcp_tools.py` lines 37-39). -/
def tool_get_customer (net : String → List (String × Json) → NetOutcome)
    (customer_id : Int) : String :=
  call_mcp_tool net "get_customer" [("customer_id", .jInt customer_id)]

/-- The request params built by `tool_list_customers` (`mcp_tools.py`
lines 41-46): `limit` always, `status` only when truthy. -/
def tool_list_customers_params (status : Option String) (limit : Int) :
    List (String × Json) :=
  if MCPServer.pyTruthy status then
    [("limit", .jInt limit), ("status", .jStr (status.getD ""))]
  else
    [("limit", .jInt limit)]

/-- Embeds `tool_list_customers` (`mcp_tools.py` lines 41-46). -/
def tool_list_customers (net : String → List (String × Json) → NetOutcome)
    (status : Option String) (limit : Int) : String :=
  call_mcp_tool net "list_customers" (tool_list_customers_params status limit)

/-- Embeds `tool_update_customer` (`mcp_tools.py` lines 48-56): validate the JSON
payload string locally; only on success is the bridge contacted. -/
def tool_update_customer (net : String → List (String × Json) → NetOutcome)
    (customer_id : Int) (data : String) : String :=
  match json_loads data with
  | none => "Error: Invalid JSON data. Data must be a valid JSON string."
  | some d =>
    call_mcp_tool net "update_customer" [("customer_id", .jInt customer_id), ("data", d)]

/-- Embeds `tool_create_ticket` (`mcp_tools.py` lines 58-60). -/
def tool_create_ticket (net : String → List (String × Json) → NetOutcome)
    (customer_id : Int) (issue : String) (priority : String) : String :=
  call_mcp_tool net "create_ticket"
    [("customer_id", .jInt customer_id), ("issue", .jStr issue), ("priority", .jStr priority)]

/-- Embeds `tool_get_customer_history` (`mcp_tools.py` lines 62-64). -/
def tool_get_customer_history (net : String → List (String × Json) → NetOutcome)
    (customer_id : Int) : String :=
  call_mcp_tool net "get_customer_history" [("customer_id", .jInt customer_id)]

/-- The `isinstance(data, (dict, list))` test of `_call_mcp_tool`
(`mcp_tools.py` line 26). -/
def isComposite : Json → Bool
  | .jArr _ => true
  | .jObj _ => true
  | _ => false

/-! Helper lemmas. -/

/-- The comparator `createdDesc` is transitive. -/
theorem createdDesc_trans : ∀ a b c : Ticket,
    MCPServer.createdDesc a b = true → MCPServer.createdDesc b c = true →
    MCPServer.createdDesc a c = true := by
  intro a b c hab hbc
  simp only [MCPServer.createdDesc, decide_eq_true_eq] at *
  omega

/-- The comparator `createdDesc` is total. -/
theorem createdDesc_total : ∀ a b : Ticket,
    (MCPServer.createdDesc a b || MCPServer.createdDesc b a) = true := by
  intro a b
  simp only [MCPServer.createdDesc, Bool.or_eq_true, decide_eq_true_eq]
  omega

/-- The history rows: success envelope, a permutation of the matching
tickets, sorted by `created_at` descending. -/
theorem get_customer_history_spec (db : DB) (customer_id : Int) :
    ∃ rows,
      MCPServer.get_customer_history db customer_id =
        .success (.ticketList rows) (some rows.length) ∧
      rows.Perm (db.tickets.filter (fun t => t.customer_id == customer_id)) ∧
      rows.Pairwise (fun a b => b.created_at ≤ a.created_at) := by
  refine ⟨_, rfl, List.mergeSort_perm _ _, ?_⟩
  have h := List.sorted_mergeSort createdDesc_trans createdDesc_total
    (db.tickets.filter (fun t => t.customer_id == customer_id))
  exact h.imp (by intro a b hab; simpa [MCPServer.createdDesc] using hab)

/-- C6: `get_customer_history` always succeeds; its data lists every ticket
of the customer ordered by `created_at` descending with `count` the number
returned; zero matching tickets give the empty sequence with count 0; on
the seed store, customer 1 yields exactly 2 tickets with count 2. -/
theorem C6_get_customer_history_contract (db : DB) (customer_id : Int) :
    (∃ rows,
      MCPServer.get_customer_history db customer_id =
        .success (.ticketList rows) (some rows.length) ∧
      rows.Perm (db.tickets.filter (fun t => t.customer_id == customer_id)) ∧
      rows.Pairwise (fun a b => b.created_at ≤ a.created_at) ∧
      (db.tickets.filter (fun t => t.customer_id == customer_id) = [] →
        MCPServer.get_customer_history db customer_id =
          .success (.ticketList []) (some 0))) ∧
    (∃ ts, MCPServer.get_customer_history seedDB 1 =
        .success (.ticketList ts) (some ts.length) ∧ ts.length = 2) := by
  constructor
  · obtain ⟨rows, h1, h2, h3⟩ := get_customer_history_spec db customer_id
    refine ⟨rows, h1, h2, h3, ?_⟩
    intro hnil
    rw [hnil] at h2
    have : rows = [] := List.Perm.eq_nil h2
    simpa [this] using h1
  · obtain ⟨rows, h1, h2, _⟩ := get_customer_history_spec seedDB 1
    refine ⟨rows, h1, ?_⟩
    rw [h2.length_eq]
    decide

/-- C3: the registry dispatch is total: an unregistered name yields the
`Unknown tool` failure envelope with the store untouched; an exception
escaping a tool body is caught and returned as a failure envelope carrying
its message; a normal tool result passes through unchanged. -/
theorem C3_call_tool_total (db : DB) (now : Nat) (tool_name : String)
    (params : List (String × PValue)) :
    (tool_name ∉ MCPServer.registeredTools →
      MCPServer.call_tool db now tool_name params =
        (.failure ("Unknown tool: " ++ tool_name), db)) ∧
    (∀ e, MCPServer.runTool db now tool_name params = .error e →
      MCPServer.call_tool db now tool_name params = (.failure e, db)) ∧
    (∀ r, MCPServer.runTool db now tool_name params = .ok r →
      tool_name ∈ MCPServer.registeredTools →
      MCPServer.call_tool db now tool_name params = r) := by
  refine ⟨?_, ?_, ?_⟩
  · intro h
    have hc : MCPServer.registeredTools.contains tool_name = false := by
      simpa [List.elem_iff] using h
    unfold MCPServer.call_tool
    rw [hc]
    rfl
  · intro e he
    by_cases h : tool_name ∈ MCPServer.registeredTools
    · have hc : MCPServer.registeredTools.contains tool_name = true := by
        simpa [List.elem_iff] using h
      unfold MCPServer.call_tool
      rw [hc, he]
      rfl
    · have hc : MCPServer.registeredTools.contains tool_name = false := by
        simpa [List.elem_iff] using h
      have hname : tool_name ≠ "get_customer" ∧ tool_name ≠ "list_customers" ∧
          tool_name ≠ "update_customer" ∧ tool_name ≠ "create_ticket" ∧
          tool_name ≠ "get_customer_history" := by
        simp [MCPServer.registeredTools] at h
        tauto
      obtain ⟨h1, h2, h3, h4, h5⟩ := hname
      have hrun : MCPServer.runTool db now tool_name params =
          .error ("Unknown tool: " ++ tool_name) := by
        simp [MCPServer.runTool, h1, h2, h3, h4, h5]
      rw [hrun] at he
      cases he
      unfold MCPServer.call_tool
      rw [hc]
      rfl
  · intro r hr hmem
    have hc : MCPServer.registeredTools.contains tool_name = true := by
      simpa [List.elem_iff] using hmem
    unfold MCPServer.call_tool
    rw [hc, hr]
    rfl

/-- Witness for C3 at concrete inputs: an unknown name, a binding error
on a registered tool, and a passed-through success. -/
theorem C3_call_tool_total_witness :
    MCPServer.call_tool seedDB 0 "bogus" [] =
      (.failure "Unknown tool: bogus", seedDB) ∧
    MCPServer.call_tool seedDB 0 "get_customer" [] =
      (.failure "TypeError: missing required argument: customer_id", seedDB) ∧
    MCPServer.call_tool seedDB 0 "get_customer" [("customer_id", .pInt 99999)] =
      (.failure "Customer 99999 not found", seedDB) := by
  refine ⟨(C3_call_tool_total seedDB 0 "bogus" []).1 (by decide), ?_, ?_⟩
  · exact (C3_call_tool_total seedDB 0 "get_customer" []).2.1 _ (by rfl)
  · exact (C3_call_tool_total seedDB 0 "get_customer" [("customer_id", .pInt 99999)]).2.2
      _ (by rfl) (by decide)

/-- C5: `get_customer` returns the row whose `id` equals the input when it
exists, else the failure envelope with message `Customer <id> not found`;
on the seed store, id 99999 yields exactly that message. -/
theorem C5_get_customer_contract (db : DB) (customer_id : Int) :
    ((∃ c ∈ db.customers, c.id = customer_id) →
      ∃ row, MCPServer.get_customer db customer_id = .success (.customer row) none ∧
        row.id = customer_id) ∧
    ((∀ c ∈ db.customers, c.id ≠ customer_id) →
      MCPServer.get_customer db customer_id =
        .failure ("Customer " ++ toString customer_id ++ " not found")) ∧
    MCPServer.get_customer seedDB 99999 = .failure "Customer 99999 not found" := by
  refine ⟨?_, ?_, by decide⟩
  · rintro ⟨c, hc, hid⟩
    have hsome : (db.customers.find? (fun x => x.id == customer_id)).isSome := by
      rw [List.find?_isSome]
      exact ⟨c, hc, by simp [hid]⟩
    obtain ⟨row, hrow⟩ := Option.isSome_iff_exists.mp hsome
    have hpid : row.id = customer_id := by
      have := List.find?_some hrow
      simpa using this
    exact ⟨row, by simp [MCPServer.get_customer, hrow], hpid⟩
  · intro h
    have hnone : db.customers.find? (fun x => x.id == customer_id) = none := by
      rw [List.find?_eq_none]
      intro x hx
      simpa using h x hx
    simp [MCPServer.get_customer, hnone]

/-- Witness for C5 at concrete inputs: seeded id 1 exists, id 99999 does not. -/
theorem C5_get_customer_contract_witness :
    (∃ row, MCPServer.get_customer seedDB 1 = .success (.customer row) none ∧
      row.id = 1) ∧
    MCPServer.get_customer seedDB 99999 = .failure "Customer 99999 not found" := by
  exact ⟨(C5_get_customer_contract seedDB 1).1 (by decide),
    (C5_get_customer_contract seedDB 99999).2.2⟩

/-! Field-wise characterization of the update path. -/

/-- A single `SET k=?` assignment never touches the primary key. -/
theorem setField_id (c : Customer) (k : String) (v : Value) :
    (MCPServer.setField c k v).id = c.id := by
  unfold MCPServer.setField; split_ifs <;> rfl

/-- A single `SET k=?` assignment never touches `created_at`. -/
theorem setField_created_at (c : Customer) (k : String) (v : Value) :
    (MCPServer.setField c k v).created_at = c.created_at := by
  unfold MCPServer.setField; split_ifs <;> rfl

/-- A single `SET k=?` assignment never touches `updated_at`. -/
theorem setField_updated_at (c : Customer) (k : String) (v : Value) :
    (MCPServer.setField c k v).updated_at = c.updated_at := by
  unfold MCPServer.setField; split_ifs <;> rfl

/-- Folding the whole SET clause never touches the primary key. -/
theorem foldl_setField_id (us : List (String × Value)) (c : Customer) :
    (us.foldl (fun a kv => MCPServer.setField a kv.1 kv.2) c).id = c.id := by
  induction us generalizing c with
  | nil => rfl
  | cons kv us ih => rw [List.foldl_cons, ih, setField_id]

/-- Folding the whole SET clause never touches `created_at`. -/
theorem foldl_setField_created_at (us : List (String × Value)) (c : Customer) :
    (us.foldl (fun a kv => MCPServer.setField a kv.1 kv.2) c).created_at = c.created_at := by
  induction us generalizing c with
  | nil => rfl
  | cons kv us ih => rw [List.foldl_cons, ih, setField_created_at]

/-- Reading `name` after one assignment. -/
theorem setField_name (c : Customer) (k : String) (v : Value) :
    (MCPServer.setField c k v).name = if k = "name" then v else c.name := by
  unfold MCPServer.setField; split_ifs <;> simp_all

/-- Reading `email` after one assignment. -/
theorem setField_email (c : Customer) (k : String) (v : Value) :
    (MCPServer.setField c k v).email = if k = "email" then v else c.email := by
  unfold MCPServer.setField; split_ifs <;> simp_all

/-- Reading `phone` after one assignment. -/
theorem setField_phone (c : Customer) (k : String) (v : Value) :
    (MCPServer.setField c k v).phone = if k = "phone" then v else c.phone := by
  unfold MCPServer.setField; split_ifs <;> simp_all

/-- Reading `status` after one assignment. -/
theorem setField_status (c : Customer) (k : String) (v : Value) :
    (MCPServer.setField c k v).status = if k = "status" then v else c.status := by
  unfold MCPServer.setField; split_ifs <;> simp_all

/-- Generic fold characterization, for any column reader that only the
assignment named `fname` changes: the fold leaves it alone when no
assignment names `fname`. -/
theorem foldl_setField_acc_not_mem (fname : String) (get : Customer → Value)
    (hget : ∀ c k v, get (MCPServer.setField c k v) = if k = fname then v else get c)
    (us : List (String × Value)) (c : Customer) (h : ∀ kv ∈ us, kv.1 ≠ fname) :
    get (us.foldl (fun a kv => MCPServer.setField a kv.1 kv.2) c) = get c := by
  induction us generalizing c with
  | nil => rfl
  | cons kv us ih =>
    rw [List.foldl_cons, ih _ (fun x hx => h x (List.mem_cons_of_mem kv hx)), hget,
      if_neg (h kv (List.mem_cons_self kv us))]

/-- Generic fold characterization with distinct assignment keys: the
column reads the assigned value when `fname` is assigned, its old value
otherwise. -/
theorem foldl_setField_acc (fname : String) (get : Customer → Value)
    (hget : ∀ c k v, get (MCPServer.setField c k v) = if k = fname then v else get c)
    (us : List (String × Value)) (c : Customer) (hnd : (us.map Prod.fst).Nodup) :
    get (us.foldl (fun a kv => MCPServer.setField a kv.1 kv.2) c) =
      (us.lookup fname).getD (get c) := by
  induction us generalizing c with
  | nil => rfl
  | cons kv us ih =>
    obtain ⟨k, v⟩ := kv
    rw [List.map_cons, List.nodup_cons] at hnd
    by_cases hk : k = fname
    · subst hk
      rw [List.foldl_cons,
        foldl_setField_acc_not_mem _ _ hget _ _
          (fun x hx hx1 => hnd.1 (List.mem_map.mpr ⟨x, hx, hx1⟩)),
        hget, if_pos rfl, List.lookup_cons]
      simp
    · rw [List.foldl_cons, ih _ hnd.2, hget, if_neg hk, List.lookup_cons,
        beq_eq_false_iff_ne.mpr (fun he => hk he.symm)]

/-- The UPDATE row transformation keeps the primary key. -/
theorem applyUpdates_id (c : Customer) (us : List (String × Value)) (now : Nat) :
    (MCPServer.applyUpdates c us now).id = c.id := by
  simpa [MCPServer.applyUpdates] using foldl_setField_id us c

/-- The UPDATE row transformation keeps `created_at`. -/
theorem applyUpdates_created_at (c : Customer) (us : List (String × Value)) (now : Nat) :
    (MCPServer.applyUpdates c us now).created_at = c.created_at := by
  simpa [MCPServer.applyUpdates] using foldl_setField_created_at us c

/-- The UPDATE row transformation refreshes `updated_at` to `now`. -/
theorem applyUpdates_updated_at (c : Customer) (us : List (String × Value)) (now : Nat) :
    (MCPServer.applyUpdates c us now).updated_at = now := rfl

/-- Reading `name` after the UPDATE row transformation (distinct keys). -/
theorem applyUpdates_name (c : Customer) (us : List (String × Value)) (now : Nat)
    (hnd : (us.map Prod.fst).Nodup) :
    (MCPServer.applyUpdates c us now).name = (us.lookup "name").getD c.name := by
  simpa [MCPServer.applyUpdates] using
    foldl_setField_acc "name" (fun x => x.name) setField_name us c hnd

/-- Reading `email` after the UPDATE row transformation (distinct keys). -/
theorem applyUpdates_email (c : Customer) (us : List (String × Value)) (now : Nat)
    (hnd : (us.map Prod.fst).Nodup) :
    (MCPServer.applyUpdates c us now).email = (us.lookup "email").getD c.email := by
  simpa [MCPServer.applyUpdates] using
    foldl_setField_acc "email" (fun x => x.email) setField_email us c hnd

/-- Reading `phone` after the UPDATE row transformation (distinct keys). -/
theorem applyUpdates_phone (c : Customer) (us : List (String × Value)) (now : Nat)
    (hnd : (us.map Prod.fst).Nodup) :
    (MCPServer.applyUpdates c us now).phone = (us.lookup "phone").getD c.phone := by
  simpa [MCPServer.applyUpdates] using
    foldl_setField_acc "phone" (fun x => x.phone) setField_phone us c hnd

/-- Reading `status` after the UPDATE row transformation (distinct keys). -/
theorem applyUpdates_status (c : Customer) (us : List (String × Value)) (now : Nat)
    (hnd : (us.map Prod.fst).Nodup) :
    (MCPServer.applyUpdates c us now).status = (us.lookup "status").getD c.status := by
  simpa [MCPServer.applyUpdates] using
    foldl_setField_acc "status" (fun x => x.status) setField_status us c hnd

/-- The re-`SELECT` after the UPDATE: searching the updated table is the
same as searching the old table and then updating the hit (the row
transformation preserves ids). -/
theorem find?_map_applyUpdates (cs : List Customer) (cid : Int)
    (us : List (String × Value)) (now : Nat) :
    (cs.map (fun x => if x.id = cid then MCPServer.applyUpdates x us now else x)).find?
        (fun x => x.id == cid) =
      (cs.find? (fun x => x.id == cid)).map
        (fun x => if x.id = cid then MCPServer.applyUpdates x us now else x) := by
  rw [List.find?_map]
  have hco : ((fun x : Customer => x.id == cid) ∘ fun x =>
      if x.id = cid then MCPServer.applyUpdates x us now else x) =
      fun x : Customer => x.id == cid := by
    funext x
    by_cases h : x.id = cid
    · simp [Function.comp, h, applyUpdates_id]
    · simp [Function.comp, h]
  rw [hco]

/-- Running `update_customer` with an empty allow-listed payload: validation error
and untouched store. -/
theorem update_customer_empty (db : DB) (customer_id : Int) (data : List (String × Value))
    (now : Nat)
    (he : data.filter (fun kv => MCPServer.allowed_fields.contains kv.1) = []) :
    MCPServer.update_customer db customer_id data now =
      (.failure "No valid fields to update", db) := by
  have hemp : (data.filter (fun kv => MCPServer.allowed_fields.contains kv.1)).isEmpty
      = true := by
    rw [he]
    rfl
  simp only [MCPServer.update_customer]
  rw [hemp]
  rfl

/-- Running `update_customer` on an existing row: success envelope with the
transformed row, the table rewritten pointwise. -/
theorem update_customer_found (db : DB) (customer_id : Int) (data : List (String × Value))
    (now : Nat)
    (hne : data.filter (fun kv => MCPServer.allowed_fields.contains kv.1) ≠ [])
    (c : Customer)
    (hc : db.customers.find? (fun x => x.id == customer_id) = some c) :
    MCPServer.update_customer db customer_id data now =
      (.success (.customer (MCPServer.applyUpdates c
          (data.filter (fun kv => MCPServer.allowed_fields.contains kv.1)) now)) none,
       { db with customers := db.customers.map (fun x =>
           if x.id = customer_id then
             MCPServer.applyUpdates x
               (data.filter (fun kv => MCPServer.allowed_fields.contains kv.1)) now
           else x) }) := by
  have hid : c.id = customer_id := by simpa using List.find?_some hc
  have hemp : (data.filter (fun kv => MCPServer.allowed_fields.contains kv.1)).isEmpty
      = false := by
    simpa [List.isEmpty_iff] using hne
  simp only [MCPServer.update_customer]
  rw [hemp]
  simp only [Bool.false_eq_true, if_false, find?_map_applyUpdates, hc]
  simp [hid]

/-- Running `update_customer` with valid fields but no matching row: not-found
failure and (up to the no-op UPDATE) untouched store. -/
theorem update_customer_notfound (db : DB) (customer_id : Int) (data : List (String × Value))
    (now : Nat)
    (hne : data.filter (fun kv => MCPServer.allowed_fields.contains kv.1) ≠ [])
    (hc : db.customers.find? (fun x => x.id == customer_id) = none) :
    MCPServer.update_customer db customer_id data now =
      (.failure ("Customer " ++ toString customer_id ++ " not found"), db) := by
  have hall := List.find?_eq_none.mp hc
  have hemp : (data.filter (fun kv => MCPServer.allowed_fields.contains kv.1)).isEmpty
      = false := by
    simpa [List.isEmpty_iff] using hne
  have hmap : db.customers.map (fun x =>
      if x.id = customer_id then
        MCPServer.applyUpdates x
          (data.filter (fun kv => MCPServer.allowed_fields.contains kv.1)) now
      else x) = db.customers := by
    have h1 : ∀ x ∈ db.customers,
        (if x.id = customer_id then
          MCPServer.applyUpdates x
            (data.filter (fun kv => MCPServer.allowed_fields.contains kv.1)) now
        else x) = id x :=
      fun x hx => if_neg (by simpa using hall x hx)
    rw [List.map_congr_left h1, List.map_id]
  simp only [MCPServer.update_customer]
  rw [hemp]
  simp only [Bool.false_eq_true, if_false, find?_map_applyUpdates, hc, hmap]

/-- Looking up an allow-listed key is unaffected by the allow-list filter. -/
theorem lookup_filter_allowed (data : List (String × Value)) (f : String)
    (hf : f ∈ MCPServer.allowed_fields) :
    (data.filter (fun kv => MCPServer.allowed_fields.contains kv.1)).lookup f =
      data.lookup f := by
  induction data with
  | nil => rfl
  | cons kv data ih =>
    obtain ⟨k, v⟩ := kv
    by_cases hk : k = f
    · subst hk
      rw [List.filter_cons_of_pos (by simpa [List.elem_iff] using hf),
        List.lookup_cons, List.lookup_cons]
      simp
    · have hfk : (f == k) = false := beq_eq_false_iff_ne.mpr (fun he => hk he.symm)
      cases hc : MCPServer.allowed_fields.contains k with
      | true =>
        rw [List.filter_cons_of_pos (by simpa using hc), List.lookup_cons,
          List.lookup_cons, hfk, ih]
      | false =>
        rw [List.filter_cons_of_neg (by simpa using hc), List.lookup_cons, hfk, ih]

/-- The allow-list filter keeps payload keys distinct. -/
theorem nodup_filter_keys (data : List (String × Value))
    (hnd : (data.map Prod.fst).Nodup) :
    ((data.filter (fun kv => MCPServer.allowed_fields.contains kv.1)).map Prod.fst).Nodup :=
  List.Nodup.sublist (List.Sublist.map Prod.fst (List.filter_sublist data)) hnd

/-- Re-fetching the updated id from the rewritten table returns exactly
the transformed first hit. -/
theorem get_customer_map_update (db : DB) (cid : Int) (us : List (String × Value))
    (now : Nat) (c : Customer)
    (hc : db.customers.find? (fun x => x.id == cid) = some c) :
    MCPServer.get_customer
      { db with customers := db.customers.map (fun x =>
          if x.id = cid then MCPServer.applyUpdates x us now else x) } cid =
      .success (.customer (MCPServer.applyUpdates c us now)) none := by
  have hid : c.id = cid := by simpa using List.find?_some hc
  simp only [MCPServer.get_customer]
  rw [find?_map_applyUpdates, hc]
  simp [hid]

/-- C1: `update_customer` applies exactly the allow-listed payload fields
and silently drops the rest; an empty allow-listed set yields the
`No valid fields to update` failure with the store untouched; a non-empty
set on an existing customer yields a success envelope holding the full
updated row with `updated_at` set to the current time; on a missing
customer it yields the not-found failure envelope. -/
theorem C1_update_customer_contract (db : DB) (customer_id : Int)
    (data : List (String × Value)) (now : Nat)
    (hnd : (data.map Prod.fst).Nodup) :
    (data.filter (fun kv => MCPServer.allowed_fields.contains kv.1) = [] →
      MCPServer.update_customer db customer_id data now =
        (.failure "No valid fields to update", db)) ∧
    (data.filter (fun kv => MCPServer.allowed_fields.contains kv.1) ≠ [] →
      (∀ c, db.customers.find? (fun x => x.id == customer_id) = some c →
        ∃ row db',
          MCPServer.update_customer db customer_id data now =
            (.success (.customer row) none, db') ∧
          row.id = c.id ∧ row.created_at = c.created_at ∧ row.updated_at = now ∧
          row.name = (data.lookup "name").getD c.name ∧
          row.email = (data.lookup "email").getD c.email ∧
          row.phone = (data.lookup "phone").getD c.phone ∧
          row.status = (data.lookup "status").getD c.status ∧
          db'.tickets = db.tickets ∧ db'.nextTicketId = db.nextTicketId ∧
          (∀ x ∈ db.customers, x.id ≠ customer_id → x ∈ db'.customers)) ∧
      (db.customers.find? (fun x => x.id == customer_id) = none →
        MCPServer.update_customer db customer_id data now =
          (.failure ("Customer " ++ toString customer_id ++ " not found"), db))) := by
  refine ⟨fun he => update_customer_empty db customer_id data now he,
    fun hne => ⟨?_, fun hc => update_customer_notfound db customer_id data now hne hc⟩⟩
  intro c hc
  have hndus := nodup_filter_keys data hnd
  refine ⟨_, _, update_customer_found db customer_id data now hne c hc,
    applyUpdates_id _ _ _, applyUpdates_created_at _ _ _, rfl, ?_, ?_, ?_, ?_, rfl, rfl, ?_⟩
  · rw [applyUpdates_name _ _ _ hndus, lookup_filter_allowed _ _ (by simp [MCPServer.allowed_fields])]
  · rw [applyUpdates_email _ _ _ hndus, lookup_filter_allowed _ _ (by simp [MCPServer.allowed_fields])]
  · rw [applyUpdates_phone _ _ _ hndus, lookup_filter_allowed _ _ (by simp [MCPServer.allowed_fields])]
  · rw [applyUpdates_status _ _ _ hndus, lookup_filter_allowed _ _ (by simp [MCPServer.allowed_fields])]
  · intro x hx hxid
    exact List.mem_map.mpr ⟨x, hx, if_neg hxid⟩

/-- Witness for C1 at concrete inputs: a payload with no allow-listed
field, a mixed payload on seeded customer 1, and a valid payload on a
missing id. -/
theorem C1_update_customer_contract_witness :
    (MCPServer.update_customer seedDB 1 [("bogus", Value.vStr "x")] 7 =
      (.failure "No valid fields to update", seedDB)) ∧
    (∃ row db',
      MCPServer.update_customer seedDB 1
        [("email", Value.vStr "new@example.com"), ("bogus", Value.vStr "z")] 7 =
        (.success (.customer row) none, db') ∧
      row.id = 1 ∧ row.created_at = 0 ∧ row.updated_at = 7 ∧
      row.email = Value.vStr "new@example.com") ∧
    (MCPServer.update_customer seedDB 99999 [("status", Value.vStr "disabled")] 7 =
      (.failure "Customer 99999 not found", seedDB)) := by
  refine ⟨(C1_update_customer_contract seedDB 1 [("bogus", Value.vStr "x")] 7
    (by decide)).1 (by decide), ?_, ?_⟩
  · obtain ⟨row, db', h1, h2, h3, h4, _, h6, _, _, _, _, _⟩ :=
      ((C1_update_customer_contract seedDB 1
        [("email", Value.vStr "new@example.com"), ("bogus", Value.vStr "z")] 7
        (by decide)).2 (by decide)).1
        ⟨1, .vStr "Alice Premium", .vStr "alice@example.com", .vStr "111-111-1111",
          .vStr "active", 0, 0⟩ (by rfl)
    exact ⟨row, db', h1, h2, h3, h4, by simpa using h6⟩
  · exact ((C1_update_customer_contract seedDB 99999 [("status", Value.vStr "disabled")] 7
      (by decide)).2 (by decide)).2 (by rfl)

/-- C9: disabling an existing customer then re-fetching it shows status
`disabled`, a strictly larger `updated_at` (the clock advanced past the
stored timestamp), and unchanged name, email, phone, id and created_at. -/
theorem C9_disable_then_get (db : DB) (customer_id : Int) (now : Nat) (c : Customer)
    (hc : db.customers.find? (fun x => x.id == customer_id) = some c)
    (hclock : c.updated_at < now) :
    ∃ row db',
      MCPServer.update_customer db customer_id [("status", Value.vStr "disabled")] now =
        (.success (.customer row) none, db') ∧
      MCPServer.get_customer db' customer_id = .success (.customer row) none ∧
      row.status = .vStr "disabled" ∧
      c.updated_at < row.updated_at ∧
      row.name = c.name ∧ row.email = c.email ∧ row.phone = c.phone ∧
      row.id = c.id ∧ row.created_at = c.created_at := by
  have hne : ([("status", Value.vStr "disabled")].filter
      (fun kv => MCPServer.allowed_fields.contains kv.1)) ≠ [] := by decide
  have hndus : ((([("status", Value.vStr "disabled")] : List (String × Value)).filter
      (fun kv => MCPServer.allowed_fields.contains kv.1)).map Prod.fst).Nodup := by decide
  refine ⟨_, _, update_customer_found db customer_id _ now hne c hc,
    get_customer_map_update db customer_id _ now c hc, ?_, ?_, ?_, ?_, ?_,
    applyUpdates_id _ _ _, applyUpdates_created_at _ _ _⟩
  · rw [applyUpdates_status _ _ _ hndus]
    rfl
  · rw [applyUpdates_updated_at]
    exact hclock
  · rw [applyUpdates_name _ _ _ hndus]
    rfl
  · rw [applyUpdates_email _ _ _ hndus]
    rfl
  · rw [applyUpdates_phone _ _ _ hndus]
    rfl

/-- Witness for C9 at seeded customer 2 with the clock advanced to 1. -/
theorem C9_disable_then_get_witness :
    ∃ row db',
      MCPServer.update_customer seedDB 2 [("status", Value.vStr "disabled")] 1 =
        (.success (.customer row) none, db') ∧
      MCPServer.get_customer db' 2 = .success (.customer row) none ∧
      row.status = .vStr "disabled" ∧
      (0 : Nat) < row.updated_at ∧
      row.name = .vStr "Bob Standard" := by
  obtain ⟨row, db', h1, h2, h3, h4, h5, _⟩ :=
    C9_disable_then_get seedDB 2 1
      ⟨2, .vStr "Bob Standard", .vStr "bob@example.com", .vStr "222-222-2222",
        .vStr "active", 0, 0⟩ (by rfl) (by decide)
  exact ⟨row, db', h1, h2, h3, h4, by simpa using h5⟩

/-- Counterexample to C8 as stated: `updated_at` is not in the allow-list
\x7bname, email, phone, status\x7d, yet a successful `update_customer`
changes it (on the seed store, customer 1 has `updated_at` 0 before the
update and 5 after), so it is false that fields outside the allow-list are
never changed by `update_customer`. -/
theorem C8_roundtrip_counterexample :
    ("updated_at" ∉ MCPServer.allowed_fields) ∧
    (∃ c, seedDB.customers.find? (fun x => x.id == 1) = some c ∧ c.updated_at = 0) ∧
    (∃ row db',
      MCPServer.update_customer seedDB 1 [("status", Value.vStr "disabled")] 5 =
        (.success (.customer row) none, db') ∧
      row.updated_at = 5) := by
  refine ⟨by decide, ⟨_, rfl, rfl⟩, ?_⟩
  exact ⟨_, _, by rfl, by rfl⟩

/-- C8 (amended): for an existing customer, the row a successful
`update_customer` returns is exactly the row the next `get_customer`
returns; each allow-listed field holds exactly the payload value when the
payload names it (no coercion) and its old value otherwise; and every
field outside the allow-list except `updated_at` — which is refreshed on
every successful update — is unchanged. -/
theorem C8_roundtrip_amended (db : DB) (customer_id : Int)
    (data : List (String × Value)) (now : Nat)
    (hnd : (data.map Prod.fst).Nodup)
    (c : Customer) (hc : db.customers.find? (fun x => x.id == customer_id) = some c)
    (hne : data.filter (fun kv => MCPServer.allowed_fields.contains kv.1) ≠ []) :
    ∃ row db',
      MCPServer.update_customer db customer_id data now =
        (.success (.customer row) none, db') ∧
      MCPServer.get_customer db' customer_id = .success (.customer row) none ∧
      (∀ v, data.lookup "name" = some v → row.name = v) ∧
      (∀ v, data.lookup "email" = some v → row.email = v) ∧
      (∀ v, data.lookup "phone" = some v → row.phone = v) ∧
      (∀ v, data.lookup "status" = some v → row.status = v) ∧
      (data.lookup "name" = none → row.name = c.name) ∧
      (data.lookup "email" = none → row.email = c.email) ∧
      (data.lookup "phone" = none → row.phone = c.phone) ∧
      (data.lookup "status" = none → row.status = c.status) ∧
      row.id = c.id ∧ row.created_at = c.created_at := by
  have hndus := nodup_filter_keys data hnd
  have hname : (MCPServer.applyUpdates c
      (data.filter (fun kv => MCPServer.allowed_fields.contains kv.1)) now).name =
      (data.lookup "name").getD c.name := by
    rw [applyUpdates_name _ _ _ hndus,
      lookup_filter_allowed _ _ (by simp [MCPServer.allowed_fields])]
  have hemail : (MCPServer.applyUpdates c
      (data.filter (fun kv => MCPServer.allowed_fields.contains kv.1)) now).email =
      (data.lookup "email").getD c.email := by
    rw [applyUpdates_email _ _ _ hndus,
      lookup_filter_allowed _ _ (by simp [MCPServer.allowed_fields])]
  have hphone : (MCPServer.applyUpdates c
      (data.filter (fun kv => MCPServer.allowed_fields.contains kv.1)) now).phone =
      (data.lookup "phone").getD c.phone := by
    rw [applyUpdates_phone _ _ _ hndus,
      lookup_filter_allowed _ _ (by simp [MCPServer.allowed_fields])]
  have hstatus : (MCPServer.applyUpdates c
      (data.filter (fun kv => MCPServer.allowed_fields.contains kv.1)) now).status =
      (data.lookup "status").getD c.status := by
    rw [applyUpdates_status _ _ _ hndus,
      lookup_filter_allowed _ _ (by simp [MCPServer.allowed_fields])]
  refine ⟨_, _, update_customer_found db customer_id data now hne c hc,
    get_customer_map_update db customer_id _ now c hc,
    ?_, ?_, ?_, ?_, ?_, ?_, ?_, ?_, applyUpdates_id _ _ _, applyUpdates_created_at _ _ _⟩
  · intro v hv; rw [hname, hv]; rfl
  · intro v hv; rw [hemail, hv]; rfl
  · intro v hv; rw [hphone, hv]; rfl
  · intro v hv; rw [hstatus, hv]; rfl
  · intro hv; rw [hname, hv]; rfl
  · intro hv; rw [hemail, hv]; rfl
  · intro hv; rw [hphone, hv]; rfl
  · intro hv; rw [hstatus, hv]; rfl

/-- Witness for the amended C8 on seeded customer 3 with a payload that
sets `phone` and carries an unknown field. -/
theorem C8_roundtrip_amended_witness :
    ∃ row db',
      MCPServer.update_customer seedDB 3
        [("phone", Value.vStr "000-000-0000"), ("zzz", Value.vInt 9)] 4 =
        (.success (.customer row) none, db') ∧
      MCPServer.get_customer db' 3 = .success (.customer row) none ∧
      row.phone = Value.vStr "000-000-0000" ∧
      row.name = Value.vStr "Charlie Disabled" ∧
      row.id = 3 := by
  obtain ⟨row, db', h1, h2, _, _, hp, _, hn, _, _, _, hid, _⟩ :=
    C8_roundtrip_amended seedDB 3
      [("phone", Value.vStr "000-000-0000"), ("zzz", Value.vInt 9)] 4 (by decide)
      ⟨3, .vStr "Charlie Disabled", .vStr "charlie@example.com", .vStr "333-333-3333",
        .vStr "disabled", 0, 0⟩ (by rfl) (by decide)
  exact ⟨row, db', h1, h2, hp _ (by rfl), by simpa using hn (by rfl), by simpa using hid⟩

/-- C2: `create_ticket` succeeds iff the lower-cased priority is one of
low/medium/high; on success exactly one row is appended, with the
lower-cased priority, status `open`, and the given `customer_id` (no
existence check); on failure the store is untouched; hence every ticket
created through the registry keeps priority in \x7blow, medium, high\x7d. -/
theorem C2_create_ticket_contract (db : DB) (customer_id : Int) (issue priority : String)
    (now : Nat) (hwf : db.WF) :
    (MCPServer.pyLower priority ∉ (["low", "medium", "high"] : List String) →
      MCPServer.create_ticket db customer_id issue priority now =
        (.failure "Priority must be \x27low\x27, \x27medium\x27, or \x27high\x27", db)) ∧
    (MCPServer.pyLower priority ∈ (["low", "medium", "high"] : List String) →
      ∃ t db',
        MCPServer.create_ticket db customer_id issue priority now =
          (.success (.ticket t) none, db') ∧
        t.priority = .vStr (MCPServer.pyLower priority) ∧ t.status = .vStr "open" ∧
        t.customer_id = customer_id ∧ t.issue = .vStr issue ∧ t.created_at = now ∧
        db'.tickets = db.tickets ++ [t] ∧ db'.customers = db.customers ∧
        ((∀ x ∈ db.tickets, ∃ p ∈ (["low", "medium", "high"] : List String),
            x.priority = .vStr p) →
          ∀ x ∈ db'.tickets, ∃ p ∈ (["low", "medium", "high"] : List String),
            x.priority = .vStr p)) := by
  constructor
  · intro h
    have hc : (["low", "medium", "high"] : List String).contains (MCPServer.pyLower priority) = false := by
      simpa [List.elem_iff] using h
    unfold MCPServer.create_ticket
    rw [hc]
    rfl
  · intro h
    have hc : (["low", "medium", "high"] : List String).contains (MCPServer.pyLower priority) = true := by
      simpa [List.elem_iff] using h
    have hfind : (db.tickets ++
        [(⟨db.nextTicketId, customer_id, .vStr issue, .vStr "open",
          .vStr (MCPServer.pyLower priority), now⟩ : Ticket)]).find?
          (fun r => r.id == db.nextTicketId) =
        some ⟨db.nextTicketId, customer_id, .vStr issue, .vStr "open",
          .vStr (MCPServer.pyLower priority), now⟩ := by
      rw [List.find?_append]
      have h1 : db.tickets.find? (fun r => r.id == db.nextTicketId) = none := by
        rw [List.find?_eq_none]
        intro x hx
        have := hwf.2 x hx
        simp
        omega
      rw [h1]
      simp
    have henv : MCPServer.create_ticket db customer_id issue priority now =
        (.success (.ticket ⟨db.nextTicketId, customer_id, .vStr issue, .vStr "open",
          .vStr (MCPServer.pyLower priority), now⟩) none,
         { customers := db.customers,
           tickets := db.tickets ++ [⟨db.nextTicketId, customer_id, .vStr issue, .vStr "open",
             .vStr (MCPServer.pyLower priority), now⟩],
           nextTicketId := db.nextTicketId + 1 }) := by
      unfold MCPServer.create_ticket
      rw [hc]
      simp [hfind]
    refine ⟨_, _, henv, rfl, rfl, rfl, rfl, rfl, rfl, rfl, ?_⟩
    intro hall x hx
    rcases List.mem_append.mp hx with hx1 | hx2
    · exact hall x hx1
    · rcases List.mem_singleton.mp hx2 with rfl
      exact ⟨MCPServer.pyLower priority, h, rfl⟩

/-- Witness for C2 at concrete inputs: `HIGH` normalizes to `high` and
succeeds; `urgent` fails and leaves the seed store unchanged. -/
theorem C2_create_ticket_contract_witness :
    (∃ t db',
      MCPServer.create_ticket seedDB 1 "issue text" "HIGH" 5 =
        (.success (.ticket t) none, db') ∧
      t.priority = .vStr "high" ∧ t.status = .vStr "open" ∧ t.customer_id = 1) ∧
    MCPServer.create_ticket seedDB 1 "x" "urgent" 5 =
      (.failure "Priority must be \x27low\x27, \x27medium\x27, or \x27high\x27", seedDB) := by
  constructor
  · obtain ⟨t, db', h1, h2, h3, h4, _⟩ :=
      (C2_create_ticket_contract seedDB 1 "issue text" "HIGH" 5 (by decide)).2 (by decide)
    rw [show MCPServer.pyLower "HIGH" = "high" from by decide] at h2
    exact ⟨t, db', h1, h2, h3, h4⟩
  · exact (C2_create_ticket_contract seedDB 1 "x" "urgent" 5 (by decide)).1 (by decide)

/-- Counterexample to C7 as stated, at two concrete inputs. With the
filter `status = ""` (a supplied filter string) and limit 10, the seed
store returns a customer whose status is `"active"`, not the filter
string: the empty-string filter is dropped (Python truthiness), so
records do not match the given filter. With no filter and limit -1,
all six seed customers are returned, and 6 is not at most -1: SQLite
treats a negative LIMIT as unbounded. -/
theorem C7_list_customers_counterexample :
    (∃ rows, MCPServer.list_customers seedDB (some "") 10 =
        .success (.customerList rows) (some rows.length) ∧
      ∃ c ∈ rows, c.status = Value.vStr "active" ∧ c.status ≠ Value.vStr "") ∧
    (∃ rows, MCPServer.list_customers seedDB none (-1) =
        .success (.customerList rows) (some rows.length) ∧
      rows.length = 6 ∧ ¬((rows.length : Int) ≤ -1)) := by
  constructor
  · exact ⟨_, rfl, by decide⟩
  · exact ⟨_, rfl, by decide, by decide⟩

/-- C7 (amended): for every status filter and every nonnegative limit,
`list_customers` returns a success envelope of at most `limit` records in
insertion order, each matching the filter when a non-empty filter string
is given; an empty-string filter is ignored (Python truthiness) and a
negative limit returns all rows (SQLite LIMIT semantics). -/
theorem C7_list_customers_amended (db : DB) (status : Option String) (limit : Int)
    (hl : 0 ≤ limit) :
    ∃ rows,
      MCPServer.list_customers db status limit =
        .success (.customerList rows) (some rows.length) ∧
      (rows.length : Int) ≤ limit ∧
      rows.Sublist db.customers ∧
      (∀ s, status = some s → s ≠ "" → ∀ c ∈ rows, c.status = Value.vStr s) := by
  have hnl : ¬limit < 0 := not_lt.mpr hl
  have hcast : (limit.toNat : Int) = limit := Int.toNat_of_nonneg hl
  by_cases ht : MCPServer.pyTruthy status = true
  · refine ⟨(db.customers.filter
        (fun c => c.status == Value.vStr (status.getD ""))).take limit.toNat, ?_, ?_, ?_, ?_⟩
    · simp only [MCPServer.list_customers]
      rw [if_pos ht, if_neg hnl]
    · have h1 : ((db.customers.filter
          (fun c => c.status == Value.vStr (status.getD ""))).take limit.toNat).length
          ≤ limit.toNat := by
        rw [List.length_take]
        exact min_le_left _ _
      omega
    · exact (List.take_sublist _ _).trans (List.filter_sublist _)
    · intro s hs hne c hcmem
      subst hs
      have hmem := (List.take_sublist _ _).subset hcmem
      have h2 := List.mem_filter.mp hmem
      simpa using h2.2
  · have ht' : MCPServer.pyTruthy status = false := by simpa using ht
    refine ⟨db.customers.take limit.toNat, ?_, ?_, List.take_sublist _ _, ?_⟩
    · simp only [MCPServer.list_customers]
      rw [ht']
      simp only [Bool.false_eq_true, if_false]
      rw [if_neg hnl]
    · have h1 : (db.customers.take limit.toNat).length ≤ limit.toNat := by
        rw [List.length_take]
        exact min_le_left _ _
      omega
    · intro s hs hne c hcmem
      subst hs
      simp [MCPServer.pyTruthy, String.isEmpty_iff, hne] at ht'

/-- Witness for the amended C7: the spec's concrete scenario
`list_customers(status="active", limit=2)` on the seed store. -/
theorem C7_list_customers_amended_witness :
    ∃ rows,
      MCPServer.list_customers seedDB (some "active") 2 =
        .success (.customerList rows) (some rows.length) ∧
      (rows.length : Int) ≤ 2 ∧
      rows.Sublist seedDB.customers ∧
      (∀ c ∈ rows, c.status = Value.vStr "active") := by
  obtain ⟨rows, h1, h2, h3, h4⟩ :=
    C7_list_customers_amended seedDB (some "active") 2 (by decide)
  exact ⟨rows, h1, h2, h3, h4 "active" rfl (by decide)⟩

/-- C10: an empty-string status filter behaves exactly like no filter, at
both layers: the tool client omits a falsy status from the request params
(`if status:`), and the server ignores a falsy status (`if status:`), so
the call returns customers of every status and no request can select
customers whose status is the empty string. -/
theorem C10_empty_status_is_no_filter (db : DB) (limit : Int) :
    tool_list_customers_params (some "") limit = tool_list_customers_params none limit ∧
    MCPServer.list_customers db (some "") limit = MCPServer.list_customers db none limit ∧
    (∀ net, tool_list_customers net (some "") limit = tool_list_customers net none limit) := by
  exact ⟨rfl, rfl, fun net => rfl⟩

/-- C4: every tool-client call returns a string (by type, nothing can
escape): a transport-level failure of any kind renders as
`MCP call failed: <reason>`; a failure envelope renders as
`Error: <message>` (`Unknown error` when the envelope has no message);
success data renders as indent-2 pretty-printed JSON for dict/list
payloads and as Python `str()` for scalars; and `tool_update_customer`
with an invalid JSON payload string reports a textual error whose result
does not depend on the network at all; each named stub is exactly one
`call_mcp_tool` invocation. -/
theorem C4_tool_client_text_contract :
    (∀ net tool_name params reason,
      net tool_name params = NetOutcome.failure reason →
      call_mcp_tool net tool_name params = "MCP call failed: " ++ reason) ∧
    (∀ net tool_name params fields msg,
      net tool_name params = NetOutcome.reply (.jObj fields) →
      jsonTruthy ((fields.lookup "success").getD .jNull) = false →
      fields.lookup "error" = some (.jStr msg) →
      call_mcp_tool net tool_name params = "Error: " ++ msg) ∧
    (∀ net tool_name params fields,
      net tool_name params = NetOutcome.reply (.jObj fields) →
      jsonTruthy ((fields.lookup "success").getD .jNull) = false →
      fields.lookup "error" = none →
      call_mcp_tool net tool_name params = "Error: Unknown error") ∧
    (∀ net tool_name params fields,
      net tool_name params = NetOutcome.reply (.jObj fields) →
      jsonTruthy ((fields.lookup "success").getD .jNull) = true →
      (isComposite ((fields.lookup "data").getD .jNull) = true →
        call_mcp_tool net tool_name params =
          jsonDumps ((fields.lookup "data").getD .jNull) 0) ∧
      (isComposite ((fields.lookup "data").getD .jNull) = false →
        call_mcp_tool net tool_name params =
          pyStr ((fields.lookup "data").getD .jNull))) ∧
    (∀ customer_id s, json_loads s = none → ∀ net net',
      tool_update_customer net customer_id s =
        "Error: Invalid JSON data. Data must be a valid JSON string." ∧
      tool_update_customer net customer_id s = tool_update_customer net' customer_id s) ∧
    (∀ net customer_id, tool_get_customer net customer_id =
      call_mcp_tool net "get_customer" [("customer_id", .jInt customer_id)]) ∧
    (∀ net status limit, tool_list_customers net status limit =
      call_mcp_tool net "list_customers" (tool_list_customers_params status limit)) ∧
    (∀ net customer_id issue priority,
      tool_create_ticket net customer_id issue priority =
        call_mcp_tool net "create_ticket" [("customer_id", .jInt customer_id),
          ("issue", .jStr issue), ("priority", .jStr priority)]) ∧
    (∀ net customer_id, tool_get_customer_history net customer_id =
      call_mcp_tool net "get_customer_history" [("customer_id", .jInt customer_id)]) := by
  refine ⟨?_, ?_, ?_, ?_, ?_, fun _ _ => rfl, fun _ _ _ => rfl, fun _ _ _ _ => rfl,
    fun _ _ => rfl⟩
  · intro net tool_name params reason hnet
    unfold call_mcp_tool
    rw [hnet]
  · intro net tool_name params fields msg hnet hfail herr
    unfold call_mcp_tool
    rw [hnet]
    simp only [hfail, Bool.false_eq_true, if_false, herr]
    rfl
  · intro net tool_name params fields hnet hfail herr
    unfold call_mcp_tool
    rw [hnet]
    simp only [hfail, Bool.false_eq_true, if_false, herr]
    rfl
  · intro net tool_name params fields hnet htrue
    constructor
    · intro hcm
      unfold call_mcp_tool
      rw [hnet]
      simp only [htrue, if_true]
      cases hd : (fields.lookup "data").getD .jNull <;> rw [hd] at hcm <;>
        first
        | rfl
        | simp [isComposite] at hcm
    · intro hcm
      unfold call_mcp_tool
      rw [hnet]
      simp only [htrue, if_true]
      cases hd : (fields.lookup "data").getD .jNull <;> rw [hd] at hcm <;>
        first
        | rfl
        | simp [isComposite] at hcm
  · intro customer_id s hp net net'
    unfold tool_update_customer
    rw [hp]
    exact ⟨rfl, rfl⟩

/-- Witness for C4 at concrete network outcomes and payloads. -/
theorem C4_tool_client_text_contract_witness :
    call_mcp_tool (fun _ _ => .failure "timeout") "get_customer" [] =
      "MCP call failed: timeout" ∧
    call_mcp_tool (fun _ _ => .reply (.jObj [("success", .jBool false),
      ("error", .jStr "boom")])) "x" [] = "Error: boom" ∧
    call_mcp_tool (fun _ _ => .reply (.jObj [("success", .jBool false)])) "x" [] =
      "Error: Unknown error" ∧
    call_mcp_tool (fun _ _ => .reply (.jObj [("success", .jBool true),
      ("data", .jArr [.jInt 1])])) "x" [] = jsonDumps (.jArr [.jInt 1]) 0 ∧
    call_mcp_tool (fun _ _ => .reply (.jObj [("success", .jBool true),
      ("data", .jInt 7)])) "x" [] = "7" ∧
    tool_update_customer (fun _ _ => .failure "down") 1 "not json" =
      "Error: Invalid JSON data. Data must be a valid JSON string." := by
  refine ⟨C4_tool_client_text_contract.1 _ "get_customer" [] "timeout" rfl,
    C4_tool_client_text_contract.2.1 _ "x" [] _ "boom" rfl (by rfl) (by rfl),
    C4_tool_client_text_contract.2.2.1 _ "x" [] _ rfl (by rfl) (by rfl),
    ((C4_tool_client_text_contract.2.2.2.1 _ "x" []
      [("success", Json.jBool true), ("data", Json.jArr [Json.jInt 1])]
      rfl (by rfl)).1 (by rfl)).trans (by rfl),
    ((C4_tool_client_text_contract.2.2.2.1 _ "x" []
      [("success", Json.jBool true), ("data", Json.jInt 7)]
      rfl (by rfl)).2 (by rfl)).trans (by rfl),
    (C4_tool_client_text_contract.2.2.2.2.1 1 "not json" (by rfl)
      (fun _ _ => .failure "down") (fun _ _ => .failure "down")).1⟩

/-- Witness for C6 at seeded customer 3, who has no tickets: empty data
and count 0, still a success envelope. -/
theorem C6_get_customer_history_contract_witness :
    MCPServer.get_customer_history seedDB 3 =
      .success (.ticketList []) (some 0) := by
  obtain ⟨⟨rows, _, _, _, h4⟩, _⟩ := C6_get_customer_history_contract seedDB 3
  exact h4 (by decide)
